import Mathlib

/-!
Shallow embedding of `src/lab2-rag-with-bedrock-knowledge-base/kb_bedrock.ipynb`.

The notebook contains three pieces of executable logic:

* a retrieval wrapper: a `retrieve` call followed by the list comprehension
  `[ (x['content']['text'], x['score']) for x in response['retrievalResults'] ]`;
* a model-catalog lookup:
  `list(filter(lambda x: x['modelId'] == modelId, bedrock_agent.list_foundation_models()['modelSummaries']))[0]['modelArn']`;
* the `ChatUX` widget class, whose `chat` method is the interactive loop.

The external service (Bedrock) is modelled as a per-turn oracle: a value of
`Except String GenResponse` saying what `retrieve_and_generate` would do if
called on that turn (return a response, or raise an exception carrying a
message).  Every local decision of the Python code — the quit test, the
empty-prompt test, the Python truthiness test `if self.session_id:`, the
`try/except` structure, the trailing `if self.name is None:` that creates a
fresh input widget — is reproduced explicitly below.
-/

namespace KbBedrock

/-- One element of `response['retrievalResults']`: the fields the notebook
reads are `x['content']['text']` and `x['score']`.  The score's numeric type
is owned by the service and never computed on locally, so it is a type
parameter. -/
structure RetrievalResult (Score : Type) where
  text : String
  score : Score
deriving Repr, DecidableEq

/-- The request built by `agent_runtime_client.retrieve(...)`:
`knowledgeBaseId`, `retrievalQuery.text`, and
`retrievalConfiguration.vectorSearchConfiguration.numberOfResults`. -/
structure RetrieveRequest where
  knowledgeBaseId : String
  queryText : String
  numberOfResults : Nat
deriving Repr, DecidableEq

/-- The part of the `retrieve` response the notebook reads:
`response['retrievalResults']`. -/
structure RetrieveResponse (Score : Type) where
  retrievalResults : List (RetrievalResult Score)
deriving Repr, DecidableEq

/-- Builds the argument of `agent_runtime_client.retrieve` exactly as the
notebook cell does (query text and result count filled in per call). -/
def mkRetrieveRequest (kbId q : String) (n : Nat) : RetrieveRequest :=
  { knowledgeBaseId := kbId, queryText := q, numberOfResults := n }

/-- The list comprehension
`[ (x['content']['text'], x['score']) for x in response['retrievalResults'] ]`. -/
def extractResults {Score : Type} (resp : RetrieveResponse Score) :
    List (String × Score) :=
  resp.retrievalResults.map (fun x => (x.text, x.score))

/-- The retrieval wrapper: issue the `retrieve` call against the service
stand-in `svc` and extract the `(text, score)` pairs.  The local code applies
no reordering, dedup or truncation. -/
def retrieveWrapper {Score : Type} (svc : RetrieveRequest → RetrieveResponse Score)
    (kbId q : String) (n : Nat) : List (String × Score) :=
  extractResults (svc (mkRetrieveRequest kbId q n))

/-- One element of `bedrock_agent.list_foundation_models()['modelSummaries']`:
only `modelId` and `modelArn` are read. -/
structure ModelSummary where
  modelId : String
  modelArn : String
deriving Repr, DecidableEq

/-- The model id the notebook filters for: `modelId = "anthropic.claude-v2:1"`. -/
def claudeModelId : String := "anthropic.claude-v2:1"

/-- The catalog lookup
`list(filter(lambda x: x['modelId'] == modelId, ...))[0]['modelArn']`.
Indexing `[0]` of an empty list raises `IndexError` in Python; the fallible
indexing is embedded as `Option` via `head?`, with `none` standing for the
raised error. -/
def claude_v2_model_arn (summaries : List ModelSummary) : Option String :=
  ((summaries.filter (fun x => x.modelId == claudeModelId)).head?).map
    (fun x => x.modelArn)

/-- The request sent by `self.qa.retrieve_and_generate(...)` inside
`ChatUX.chat`.  `sessionId = none` models the keyword argument being omitted
(the `else` branch of `if self.session_id:`). -/
structure GenRequest where
  sessionId : Option String
  inputText : String
  knowledgeBaseId : String
  modelArn : String
deriving Repr, DecidableEq

/-- The parts of the `retrieve_and_generate` response the notebook reads:
`response['sessionId']` and `response['output']['text']`. -/
structure GenResponse where
  sessionId : String
  outputText : String
deriving Repr, DecidableEq

/-- The fixed configuration the chat cell closes over: the global
`knowledgebase_id` and `claude_v2_model_arn` values. -/
structure ChatConfig where
  knowledgebase_id : String
  model_arn : String
deriving Repr, DecidableEq

/-- The mutable fields of `ChatUX` the loop logic reads and writes:
`self.name` (the input widget — `none` when no widget exists, `some t` when a
widget holding text `t` exists) and `self.session_id`.  `self.qa`, `self.b`
and `self.out` carry no loop-relevant state. -/
structure ChatState where
  name : Option String
  session_id : Option String
deriving Repr, DecidableEq

/-- The constructor `ChatUX.__init__`: `self.name = None`,
`self.session_id = None`. -/
def initState : ChatState := { name := none, session_id := none }

/-- Python truthiness of `self.session_id` in `if self.session_id:`:
`None` and the empty string are falsy, every other string is truthy. -/
def pyTruthy : Option String → Bool
  | none => false
  | some s => !(s == "")

/-- The quit test `'q' == prompt or 'quit' == prompt or 'Q' == prompt`. -/
def isQuit (prompt : String) : Bool :=
  prompt == "q" || prompt == "quit" || prompt == "Q"

/-- The line `prompt = "" if self.name is None else self.name.value`. -/
def promptOf (st : ChatState) : String :=
  match st.name with
  | none => ""
  | some v => v

/-- The `retrieve_and_generate` request built in `ChatUX.chat`: the
`sessionId=self.session_id` keyword is present exactly when
`if self.session_id:` is truthy; otherwise the call in the `else` branch
omits it. -/
def buildGenRequest (cfg : ChatConfig) (session : Option String)
    (prompt : String) : GenRequest :=
  { sessionId := if pyTruthy session then session else none,
    inputText := prompt,
    knowledgeBaseId := cfg.knowledgebase_id,
    modelArn := cfg.model_arn }

/-- The externally observable actions of one `ChatUX.chat` invocation. -/
structure ChatEvents where
  /-- The `retrieve_and_generate` request issued this turn, if any. -/
  request : Option GenRequest
  /-- The service response received this turn, if the call was made and
  succeeded. -/
  response : Option GenResponse
  /-- The exception message printed by `except Exception as e: print(e)`. -/
  errorPrinted : Option String
  /-- The `result` printed by `print(f"AI: {result}")`, if that line ran. -/
  answerPrinted : Option String
  /-- Whether the trailing `if self.name is None:` block ran, displaying a
  fresh input `Text` widget and `Send` button. -/
  newInputBox : Bool
  /-- Whether the quit branch ran (`print("Thank you , ...")` followed by
  `return`). -/
  terminated : Bool
deriving Repr, DecidableEq

/-- One invocation of `ChatUX.chat`, with the service stand-in's behaviour
for this turn given by `oc`.  Faithful to the method body: quit test first;
then the `elif len(prompt) > 0:` block with its `try/except`
(`self.session_id = response['sessionId']` runs only when the call returns;
the `except` branch prints the exception and sets `result = "No answer"`;
both paths then print `AI: {result}`, disable the widgets and set
`self.name = None`); finally `if self.name is None:` creates a fresh empty
input widget. -/
def chat (cfg : ChatConfig) (oc : Except String GenResponse)
    (st : ChatState) : ChatState × ChatEvents :=
  let prompt := promptOf st
  if isQuit prompt then
    (st, { request := none, response := none, errorPrinted := none,
           answerPrinted := none, newInputBox := false, terminated := true })
  else
    let step :
        ChatState × Option GenRequest × Option GenResponse ×
          Option String × Option String :=
      if prompt.length > 0 then
        let req := buildGenRequest cfg st.session_id prompt
        match oc with
        | .ok resp =>
            (⟨none, some resp.sessionId⟩, some req, some resp, none,
              some resp.outputText)
        | .error e =>
            (⟨none, st.session_id⟩, some req, none, some e, some "No answer")
      else
        (st, none, none, none, none)
    match step with
    | (st1, req?, resp?, err?, ans?) =>
      match st1.name with
      | none =>
          ({ st1 with name := some "" },
           { request := req?, response := resp?, errorPrinted := err?,
             answerPrinted := ans?, newInputBox := true, terminated := false })
      | some _ =>
          (st1,
           { request := req?, response := resp?, errorPrinted := err?,
             answerPrinted := ans?, newInputBox := false, terminated := false })

/-- The method `ChatUX.start_chat`: prints a greeting, displays the output area, then
calls `self.chat(None)` on the freshly initialised state.  No widget exists
yet, so the turn's oracle is irrelevant (no call can be made); it is still a
parameter for uniformity. -/
def start_chat (cfg : ChatConfig) (oc : Except String GenResponse) :
    ChatState × ChatEvents :=
  chat cfg oc initState

/-- The user typing `text` into the input widget before pressing `Send`.
With no widget present no input can be entered. -/
def setInput (st : ChatState) (text : String) : ChatState :=
  match st.name with
  | none => st
  | some _ => { st with name := some text }

/-- One user turn: type `t.1` into the widget, press `Send` (which invokes
`chat`), with the service stand-in behaving as `t.2` this turn. -/
def runTurn (cfg : ChatConfig) (t : String × Except String GenResponse)
    (st : ChatState) : ChatState × ChatEvents :=
  chat cfg t.2 (setInput st t.1)

/-- Final state after a sequence of user turns. -/
def runTrace (cfg : ChatConfig) (st : ChatState) :
    List (String × Except String GenResponse) → ChatState
  | [] => st
  | t :: ts => runTrace cfg (runTurn cfg t st).1 ts

/-- The event record of every turn of a run, in order. -/
def runTraceEvents (cfg : ChatConfig) (st : ChatState) :
    List (String × Except String GenResponse) → List ChatEvents
  | [] => []
  | t :: ts => (runTurn cfg t st).2 :: runTraceEvents cfg (runTurn cfg t st).1 ts

/-- Session identifiers of the successful generation calls of an event
trace, in order. -/
def successSessions (evs : List ChatEvents) : List String :=
  evs.filterMap (fun ev => ev.response.map (fun r => r.sessionId))

/-! ## Step lemmas about `chat` -/

/-- On a quit prompt the method returns at the quit branch: state untouched,
no call, no new widget. -/
theorem chat_quit (cfg : ChatConfig) (oc : Except String GenResponse)
    (st : ChatState) (tx : String) (hname : st.name = some tx)
    (hq : isQuit tx = true) :
    chat cfg oc st =
      (st, { request := none, response := none, errorPrinted := none,
             answerPrinted := none, newInputBox := false, terminated := true }) := by
  simp [chat, promptOf, hname, hq]

/-- On a nonempty non-quit prompt the method issues the generation request
and handles the two service outcomes. -/
theorem chat_call (cfg : ChatConfig) (oc : Except String GenResponse)
    (st : ChatState) (tx : String) (hname : st.name = some tx)
    (hq : isQuit tx = false) (hl : 0 < tx.length) :
    chat cfg oc st =
      match oc with
      | .ok resp =>
          ({ name := some "", session_id := some resp.sessionId },
           { request := some (buildGenRequest cfg st.session_id tx),
             response := some resp, errorPrinted := none,
             answerPrinted := some resp.outputText,
             newInputBox := true, terminated := false })
      | .error e =>
          ({ name := some "", session_id := st.session_id },
           { request := some (buildGenRequest cfg st.session_id tx),
             response := none, errorPrinted := some e,
             answerPrinted := some "No answer",
             newInputBox := true, terminated := false }) := by
  cases oc <;> simp [chat, promptOf, hname, hq, hl]

/-- On an empty prompt entered into an existing widget nothing happens: no
branch of the method body runs (the trailing `if self.name is None:` is
false, the widget still exists). -/
theorem chat_empty (cfg : ChatConfig) (oc : Except String GenResponse)
    (st : ChatState) (hname : st.name = some "") :
    chat cfg oc st =
      (st, { request := none, response := none, errorPrinted := none,
             answerPrinted := none, newInputBox := false, terminated := false }) := by
  simp [chat, promptOf, hname, isQuit]

/-- A non-quit prompt never reaches the quit branch, whatever else happens. -/
theorem chat_not_quit (cfg : ChatConfig) (oc : Except String GenResponse)
    (st : ChatState) (tx : String) (hname : st.name = some tx)
    (hq : isQuit tx = false) :
    (chat cfg oc st).2.terminated = false := by
  simp only [chat, promptOf, hname, hq, Bool.false_eq_true, if_false]
  split <;> rfl

/-- A string of length zero is the empty string. -/
theorem string_eq_empty_of_length_eq_zero {s : String} (h : s.length = 0) :
    s = "" := by
  cases s with
  | mk data =>
    simp [String.length] at h
    simp [h]

/-- With no input widget yet (`self.name is None`) the prompt defaults to the
empty string, so no branch runs except the trailing widget creation. -/
theorem chat_no_widget (cfg : ChatConfig) (oc : Except String GenResponse)
    (st : ChatState) (hname : st.name = none) :
    chat cfg oc st =
      ({ name := some "", session_id := st.session_id },
       { request := none, response := none, errorPrinted := none,
         answerPrinted := none, newInputBox := true, terminated := false }) := by
  cases st
  simp_all [chat, promptOf, isQuit]

/-- Value of `self.session_id` after one `chat` invocation: the `sessionId` of this
turn's successful response if there was one, the previous value otherwise. -/
theorem chat_session_step (cfg : ChatConfig) (oc : Except String GenResponse)
    (st : ChatState) :
    (chat cfg oc st).1.session_id =
      match (chat cfg oc st).2.response with
      | some r => some r.sessionId
      | none => st.session_id := by
  cases hname : st.name with
  | none => rw [chat_no_widget cfg oc st hname]
  | some tx =>
    cases hq : isQuit tx with
    | true => rw [chat_quit cfg oc st tx hname hq]
    | false =>
      rcases Nat.eq_zero_or_pos tx.length with hl | hl
      · have htx : tx = "" := string_eq_empty_of_length_eq_zero hl
        subst htx
        rw [chat_empty cfg oc st hname]
      · rw [chat_call cfg oc st tx hname hq hl]
        cases oc <;> rfl

/-! ## Claim theorems -/

/-- C10: the initial invocation of the chat loop (`start_chat` calling
`chat(None)` with no input widget created yet) treats the absent input box as
an empty prompt: it makes no generation call, touches no widget value (the
prompt defaults to `""` via the `self.name is None` branch), leaves the
session identifier at its initial `None`, and only displays the first input
box. -/
theorem C10_start_chat_safe (cfg : ChatConfig) (oc : Except String GenResponse) :
    start_chat cfg oc =
      ({ name := some "", session_id := none },
       { request := none, response := none, errorPrinted := none,
         answerPrinted := none, newInputBox := true, terminated := false }) :=
  chat_no_widget cfg oc initState rfl

/-- C5: for an input line equal to exactly `"q"`, `"Q"`, or `"quit"`, the
interactive loop terminates — it returns at the quit branch, displaying no
new input box — and does not issue the generation request on that turn. -/
theorem C5_quit_terminates (cfg : ChatConfig) (oc : Except String GenResponse)
    (st : ChatState) (tx : String) (hname : st.name = some tx)
    (hq : tx = "q" ∨ tx = "Q" ∨ tx = "quit") :
    (chat cfg oc st).2.terminated = true ∧
    (chat cfg oc st).2.newInputBox = false ∧
    (chat cfg oc st).2.request = none := by
  have hq' : isQuit tx = true := by
    rcases hq with h | h | h <;> subst h <;> decide
  rw [chat_quit cfg oc st tx hname hq']
  exact ⟨rfl, rfl, rfl⟩

/-- Witness for C5 at the concrete input `"Q"`. -/
theorem C5_quit_terminates_witness :
    (chat ⟨"kb", "arn"⟩ (.ok ⟨"s1", "a1"⟩) ⟨some "Q", none⟩).2.terminated = true ∧
    (chat ⟨"kb", "arn"⟩ (.ok ⟨"s1", "a1"⟩) ⟨some "Q", none⟩).2.newInputBox = false ∧
    (chat ⟨"kb", "arn"⟩ (.ok ⟨"s1", "a1"⟩) ⟨some "Q", none⟩).2.request = none :=
  C5_quit_terminates ⟨"kb", "arn"⟩ (.ok ⟨"s1", "a1"⟩) ⟨some "Q", none⟩ "Q" rfl
    (Or.inr (Or.inl rfl))

/-- C4, counterexample: the claim says any case variant of the quit sentinel
(including `"Quit"`) terminates the loop without a generation call.  The
source's test is `'q' == prompt or 'quit' == prompt or 'Q' == prompt`, which
is case-sensitive apart from the single letter: on the input `"Quit"` the
loop does NOT terminate and DOES issue the generation request. -/
theorem C4_counterexample :
    (runTurn ⟨"kb", "arn"⟩ ("Quit", .ok ⟨"s1", "a1"⟩) ⟨some "", none⟩).2.terminated
        = false ∧
    (runTurn ⟨"kb", "arn"⟩ ("Quit", .ok ⟨"s1", "a1"⟩) ⟨some "", none⟩).2.request =
      some { sessionId := none, inputText := "Quit", knowledgeBaseId := "kb",
             modelArn := "arn" } := by
  constructor <;> rfl

/-- C4, amended: the loop terminates exactly on the three literal strings
`"q"`, `"quit"`, `"Q"` (other case variants such as `"Quit"` or `"QUIT"` are
treated as ordinary prompts), and on a terminating turn no generation request
is issued. -/
theorem C4_amended_quit_exact (cfg : ChatConfig) (oc : Except String GenResponse)
    (st : ChatState) (tx : String) (hname : st.name = some tx) :
    ((chat cfg oc st).2.terminated = true ↔ (tx = "q" ∨ tx = "quit" ∨ tx = "Q")) ∧
    ((chat cfg oc st).2.terminated = true → (chat cfg oc st).2.request = none) := by
  cases hq : isQuit tx with
  | true =>
    rw [chat_quit cfg oc st tx hname hq]
    have : tx = "q" ∨ tx = "quit" ∨ tx = "Q" := by
      simpa [isQuit, or_assoc] using hq
    simp [this]
  | false =>
    have hterm := chat_not_quit cfg oc st tx hname hq
    rw [hterm]
    have : ¬(tx = "q" ∨ tx = "quit" ∨ tx = "Q") := by
      simpa [isQuit, or_assoc, not_or, and_assoc] using hq
    simp [this]

/-- Witness for C4's amended claim at the concrete input `"Quit"`, which must
not terminate the loop. -/
theorem C4_amended_quit_exact_witness :
    (chat ⟨"kb", "arn"⟩ (.ok ⟨"s1", "a1"⟩) ⟨some "Quit", none⟩).2.terminated = false := by
  have h := C4_amended_quit_exact ⟨"kb", "arn"⟩ (.ok ⟨"s1", "a1"⟩)
    ⟨some "Quit", none⟩ "Quit" rfl
  have hne : ¬("Quit" = "q" ∨ "Quit" = "quit" ∨ "Quit" = "Q") := by decide
  cases hterm : (chat ⟨"kb", "arn"⟩ (.ok ⟨"s1", "a1"⟩) ⟨some "Quit", none⟩).2.terminated
  · rfl
  · exact absurd (h.1.mp hterm) hne

/-- C3: when the generation call raises on a turn (prompt nonempty and not a
quit sentinel), the exception is caught: its message is printed, the fixed
placeholder `"No answer"` is printed in place of the generated text, a fresh
input box is displayed, and the loop does not terminate. -/
theorem C3_exception_caught_loop_continues (cfg : ChatConfig) (st : ChatState)
    (tx e : String) (hname : st.name = some tx) (hq : isQuit tx = false)
    (hl : 0 < tx.length) :
    (chat cfg (.error e) st).2.errorPrinted = some e ∧
    (chat cfg (.error e) st).2.answerPrinted = some "No answer" ∧
    (chat cfg (.error e) st).2.newInputBox = true ∧
    (chat cfg (.error e) st).2.terminated = false := by
  rw [chat_call cfg (.error e) st tx hname hq hl]
  exact ⟨rfl, rfl, rfl, rfl⟩

/-- Witness for C3 on the concrete prompt `"hi"` and exception message
`"boom"`. -/
theorem C3_exception_caught_loop_continues_witness :
    (chat ⟨"kb", "arn"⟩ (.error "boom") ⟨some "hi", none⟩).2.errorPrinted = some "boom" ∧
    (chat ⟨"kb", "arn"⟩ (.error "boom") ⟨some "hi", none⟩).2.answerPrinted =
      some "No answer" ∧
    (chat ⟨"kb", "arn"⟩ (.error "boom") ⟨some "hi", none⟩).2.newInputBox = true ∧
    (chat ⟨"kb", "arn"⟩ (.error "boom") ⟨some "hi", none⟩).2.terminated = false :=
  C3_exception_caught_loop_continues ⟨"kb", "arn"⟩ ⟨some "hi", none⟩ "hi" "boom"
    rfl (by decide) (by decide)

/-- C6, counterexample: the claim says an empty-input turn re-displays the
input box.  In the source, an empty prompt skips the `elif len(prompt) > 0:`
block, leaving `self.name` set, so the trailing `if self.name is None:` is
false and no new input box is displayed: the existing widget simply remains.
(The rest of the claim holds: no request is issued and the session identifier
is unchanged.) -/
theorem C6_counterexample :
    (runTurn ⟨"kb", "arn"⟩ ("", .ok ⟨"s1", "a1"⟩) ⟨some "x", some "s0"⟩).2.newInputBox
        = false ∧
    (runTurn ⟨"kb", "arn"⟩ ("", .ok ⟨"s1", "a1"⟩) ⟨some "x", some "s0"⟩).2.request
        = none ∧
    (runTurn ⟨"kb", "arn"⟩ ("", .ok ⟨"s1", "a1"⟩) ⟨some "x", some "s0"⟩).1.session_id
        = some "s0" := by
  exact ⟨rfl, rfl, rfl⟩

/-- C6, amended: on an empty input line the loop issues no generation
request, leaves the stored session identifier unchanged, prints nothing, and
waits for the next input with the existing input box left in place — no new
input box is created. -/
theorem C6_amended_empty_input_noop (cfg : ChatConfig)
    (oc : Except String GenResponse) (st : ChatState) (tx : String)
    (hname : st.name = some tx) :
    (runTurn cfg ("", oc) st).1 = { name := some "", session_id := st.session_id } ∧
    (runTurn cfg ("", oc) st).2 =
      { request := none, response := none, errorPrinted := none,
        answerPrinted := none, newInputBox := false, terminated := false } := by
  have hset : setInput st "" = { name := some "", session_id := st.session_id } := by
    cases st
    simp_all [setInput]
  unfold runTurn
  rw [hset, chat_empty cfg oc _ rfl]
  exact ⟨rfl, rfl⟩

/-- Witness for C6's amended claim on a concrete state holding session
`"s0"`. -/
theorem C6_amended_empty_input_noop_witness :
    (runTurn ⟨"kb", "arn"⟩ ("", .ok ⟨"s1", "a1"⟩) ⟨some "x", some "s0"⟩).1 =
      { name := some "", session_id := some "s0" } ∧
    (runTurn ⟨"kb", "arn"⟩ ("", .ok ⟨"s1", "a1"⟩) ⟨some "x", some "s0"⟩).2 =
      { request := none, response := none, errorPrinted := none,
        answerPrinted := none, newInputBox := false, terminated := false } :=
  C6_amended_empty_input_noop ⟨"kb", "arn"⟩ (.ok ⟨"s1", "a1"⟩)
    ⟨some "x", some "s0"⟩ "x" rfl

/-- C1, counterexample: the claim says the session identifier returned by a
successful call is stored and passed verbatim as the session field of the
next generation call.  The source guards the session argument with Python
truthiness (`if self.session_id:`), so when the service returns the empty
string as `sessionId`, it is stored (`self.session_id = some ""`) but the
next request omits the session field (`sessionId := none`) instead of
passing the stored identifier verbatim. -/
theorem C1_counterexample :
    (runTurn ⟨"kb", "arn"⟩ ("hi", .ok ⟨"", "a1"⟩) ⟨some "", none⟩).1.session_id
        = some "" ∧
    (runTurn ⟨"kb", "arn"⟩ ("again", .ok ⟨"s2", "a2"⟩)
        (runTurn ⟨"kb", "arn"⟩ ("hi", .ok ⟨"", "a1"⟩) ⟨some "", none⟩).1).2.request =
      some { sessionId := none, inputText := "again", knowledgeBaseId := "kb",
             modelArn := "arn" } :=
  ⟨rfl, rfl⟩

/-- C1, amended: on a turn with no prior session identifier the generation
request omits the session field; after a successful call the returned session
identifier is stored, and — provided it is a nonempty string — it is passed
verbatim as the session field of the next generation call.  (An empty
returned identifier is stored but treated as absent by the Python truthiness
test `if self.session_id:`.) -/
theorem C1_amended_session_flow (cfg : ChatConfig) (st : ChatState)
    (tx₁ tx₂ : String) (resp : GenResponse) (oc₂ : Except String GenResponse)
    (hname : st.name = some tx₁) (hsess : st.session_id = none)
    (hq₁ : isQuit tx₁ = false) (hl₁ : 0 < tx₁.length)
    (hq₂ : isQuit tx₂ = false) (hl₂ : 0 < tx₂.length)
    (hns : resp.sessionId ≠ "") :
    (chat cfg (.ok resp) st).2.request =
      some { sessionId := none, inputText := tx₁,
             knowledgeBaseId := cfg.knowledgebase_id, modelArn := cfg.model_arn } ∧
    (chat cfg (.ok resp) st).1.session_id = some resp.sessionId ∧
    (runTurn cfg (tx₂, oc₂) (chat cfg (.ok resp) st).1).2.request =
      some { sessionId := some resp.sessionId, inputText := tx₂,
             knowledgeBaseId := cfg.knowledgebase_id, modelArn := cfg.model_arn } := by
  rw [chat_call cfg (.ok resp) st tx₁ hname hq₁ hl₁]
  refine ⟨by simp [buildGenRequest, hsess, pyTruthy], rfl, ?_⟩
  unfold runTurn
  have hset :
      setInput ⟨some "", some resp.sessionId⟩ tx₂ =
        ⟨some tx₂, some resp.sessionId⟩ := rfl
  rw [hset, chat_call cfg oc₂ _ tx₂ rfl hq₂ hl₂]
  cases oc₂ <;> simp [buildGenRequest, pyTruthy, hns]

/-- Witness for C1's amended claim: a two-turn run with prompts `"hi"` and
`"again"` where the first call succeeds with session `"s1"`. -/
theorem C1_amended_session_flow_witness :
    (chat ⟨"kb", "arn"⟩ (.ok ⟨"s1", "a1"⟩) ⟨some "hi", none⟩).2.request =
      some { sessionId := none, inputText := "hi", knowledgeBaseId := "kb",
             modelArn := "arn" } ∧
    (chat ⟨"kb", "arn"⟩ (.ok ⟨"s1", "a1"⟩) ⟨some "hi", none⟩).1.session_id
        = some "s1" ∧
    (runTurn ⟨"kb", "arn"⟩ ("again", .ok ⟨"s2", "a2"⟩)
        (chat ⟨"kb", "arn"⟩ (.ok ⟨"s1", "a1"⟩) ⟨some "hi", none⟩).1).2.request =
      some { sessionId := some "s1", inputText := "again",
             knowledgeBaseId := "kb", modelArn := "arn" } :=
  C1_amended_session_flow ⟨"kb", "arn"⟩ ⟨some "hi", none⟩ "hi" "again"
    ⟨"s1", "a1"⟩ (.ok ⟨"s2", "a2"⟩) rfl rfl (by decide) (by decide) (by decide)
    (by decide) (by decide)

/-- C2, counterexample: the claim says that after a failed turn the next
generation call still includes the previously obtained session identifier
unchanged.  When the previously obtained identifier is the empty string, it
survives the failed turn unchanged (`some ""`) but the next request omits the
session field entirely (Python truthiness), so the next call does not include
it. -/
theorem C2_counterexample :
    (runTurn ⟨"kb", "arn"⟩ ("hi", .ok ⟨"", "a1"⟩) ⟨some "", none⟩).1.session_id
        = some "" ∧
    (runTurn ⟨"kb", "arn"⟩ ("oops", .error "boom")
        (runTurn ⟨"kb", "arn"⟩ ("hi", .ok ⟨"", "a1"⟩) ⟨some "", none⟩).1).1.session_id
        = some "" ∧
    (runTurn ⟨"kb", "arn"⟩ ("next", .ok ⟨"s3", "a3"⟩)
        (runTurn ⟨"kb", "arn"⟩ ("oops", .error "boom")
          (runTurn ⟨"kb", "arn"⟩ ("hi", .ok ⟨"", "a1"⟩) ⟨some "", none⟩).1).1).2.request =
      some { sessionId := none, inputText := "next", knowledgeBaseId := "kb",
             modelArn := "arn" } :=
  ⟨rfl, rfl, rfl⟩

/-- C2, amended: a turn whose generation call raises leaves the stored
session identifier exactly as it was before the turn (it is not cleared),
and — provided the stored identifier is a nonempty string — the next
generation call after the failed turn still includes it unchanged.  (An empty
stored identifier also survives unchanged but is treated as absent on the
next call, just as before the failure.) -/
theorem C2_amended_failure_frame (cfg : ChatConfig) (st : ChatState)
    (tx₁ tx₂ e s : String) (oc₂ : Except String GenResponse)
    (hname : st.name = some tx₁) (hsess : st.session_id = some s)
    (hq₁ : isQuit tx₁ = false) (hl₁ : 0 < tx₁.length)
    (hq₂ : isQuit tx₂ = false) (hl₂ : 0 < tx₂.length)
    (hns : s ≠ "") :
    (chat cfg (.error e) st).1.session_id = st.session_id ∧
    (runTurn cfg (tx₂, oc₂) (chat cfg (.error e) st).1).2.request =
      some { sessionId := some s, inputText := tx₂,
             knowledgeBaseId := cfg.knowledgebase_id, modelArn := cfg.model_arn } := by
  rw [chat_call cfg (.error e) st tx₁ hname hq₁ hl₁]
  refine ⟨rfl, ?_⟩
  unfold runTurn
  have hset :
      setInput ⟨some "", st.session_id⟩ tx₂ = ⟨some tx₂, st.session_id⟩ := rfl
  rw [hset, chat_call cfg oc₂ _ tx₂ rfl hq₂ hl₂]
  cases oc₂ <;> simp [buildGenRequest, pyTruthy, hsess, hns]

/-- Witness for C2's amended claim: session `"s1"` survives the failed turn
`"oops"` and is included on the following call `"next"`. -/
theorem C2_amended_failure_frame_witness :
    (chat ⟨"kb", "arn"⟩ (.error "boom") ⟨some "oops", some "s1"⟩).1.session_id
        = some "s1" ∧
    (runTurn ⟨"kb", "arn"⟩ ("next", .ok ⟨"s3", "a3"⟩)
        (chat ⟨"kb", "arn"⟩ (.error "boom") ⟨some "oops", some "s1"⟩).1).2.request =
      some { sessionId := some "s1", inputText := "next",
             knowledgeBaseId := "kb", modelArn := "arn" } :=
  C2_amended_failure_frame ⟨"kb", "arn"⟩ ⟨some "oops", some "s1"⟩ "oops" "next"
    "boom" "s1" (.ok ⟨"s3", "a3"⟩) rfl rfl (by decide) (by decide) (by decide)
    (by decide) (by decide)

/-- C7: for a valid query and positive requested count, the retrieval
wrapper — the `retrieve` call followed by the `(text, score)` list
comprehension — returns at most `count` results (given that the service
stand-in honours the `numberOfResults` it is sent), each a `(text, score)`
pair, and is exactly the service's result list mapped to pairs in the same
order: no local reordering, dedup or truncation. -/
theorem C7_retrieval_passthrough {Score : Type}
    (svc : RetrieveRequest → RetrieveResponse Score) (kbId q : String) (n : Nat)
    (hn : 0 < n)
    (hsvc : (svc (mkRetrieveRequest kbId q n)).retrievalResults.length ≤ n) :
    (retrieveWrapper svc kbId q n).length ≤ n ∧
    retrieveWrapper svc kbId q n =
      (svc (mkRetrieveRequest kbId q n)).retrievalResults.map
        (fun x => (x.text, x.score)) := by
  refine ⟨?_, rfl⟩
  simpa [retrieveWrapper, extractResults] using hsvc

/-- Witness for C7: the spec's own example shape — query `"Toy Story"`,
count 3, a stand-in supplying two scored documents. -/
theorem C7_retrieval_passthrough_witness :
    (retrieveWrapper
        (fun _ => ⟨[⟨"d1", (1 : Int)⟩, ⟨"d2", (2 : Int)⟩]⟩) "kb" "Toy Story" 3).length
      ≤ 3 ∧
    retrieveWrapper (fun _ => ⟨[⟨"d1", (1 : Int)⟩, ⟨"d2", (2 : Int)⟩]⟩)
        "kb" "Toy Story" 3 =
      ((fun (_ : RetrieveRequest) =>
          RetrieveResponse.mk [⟨"d1", (1 : Int)⟩, ⟨"d2", (2 : Int)⟩])
        (mkRetrieveRequest "kb" "Toy Story" 3)).retrievalResults.map
          (fun x => (x.text, x.score)) :=
  C7_retrieval_passthrough
    (fun _ => ⟨[⟨"d1", (1 : Int)⟩, ⟨"d2", (2 : Int)⟩]⟩) "kb" "Toy Story" 3
    (by decide) (by decide)

/-- C9: the model-catalog lookup
`list(filter(lambda x: x['modelId'] == modelId, ...))[0]['modelArn']` raises
(embedded: returns `none`) when no catalog entry has
`modelId = "anthropic.claude-v2:1"`, and returns the `modelArn` of the first
matching entry otherwise. -/
theorem C9_catalog_lookup (summaries : List ModelSummary) :
    ((∀ s ∈ summaries, s.modelId ≠ claudeModelId) →
      claude_v2_model_arn summaries = none) ∧
    (∀ pre x post, summaries = pre ++ x :: post → x.modelId = claudeModelId →
      (∀ y ∈ pre, y.modelId ≠ claudeModelId) →
      claude_v2_model_arn summaries = some x.modelArn) := by
  constructor
  · intro h
    have hfil : summaries.filter (fun x => x.modelId == claudeModelId) = [] := by
      rw [List.filter_eq_nil_iff]
      intro a ha
      simpa using h a ha
    simp [claude_v2_model_arn, hfil]
  · intro pre x post hsum hx hpre
    subst hsum
    have hfil : pre.filter (fun y => y.modelId == claudeModelId) = [] := by
      rw [List.filter_eq_nil_iff]
      intro a ha
      simpa using hpre a ha
    simp [claude_v2_model_arn, List.filter_append, hfil, List.filter_cons, hx]

/-- Witness for C9: a catalog with a non-matching entry followed by two
matching entries yields the arn of the first match; a catalog with no match
yields none. -/
theorem C9_catalog_lookup_witness :
    claude_v2_model_arn
        [⟨"other", "arnX"⟩, ⟨"anthropic.claude-v2:1", "arnY"⟩,
         ⟨"anthropic.claude-v2:1", "arnZ"⟩] = some "arnY" ∧
    claude_v2_model_arn [⟨"other", "arnX"⟩] = none := by
  constructor
  · exact (C9_catalog_lookup
        [⟨"other", "arnX"⟩, ⟨"anthropic.claude-v2:1", "arnY"⟩,
         ⟨"anthropic.claude-v2:1", "arnZ"⟩]).2
      [⟨"other", "arnX"⟩] ⟨"anthropic.claude-v2:1", "arnY"⟩
      [⟨"anthropic.claude-v2:1", "arnZ"⟩] rfl rfl (by decide)
  · exact (C9_catalog_lookup [⟨"other", "arnX"⟩]).1 (by decide)

/-- Typing into the widget never touches `self.session_id`. -/
theorem setInput_session (st : ChatState) (tx : String) :
    (setInput st tx).session_id = st.session_id := by
  unfold setInput
  split <;> rfl

/-- Value of `self.session_id` after a full user turn: the `sessionId` of the
turn's successful response if there was one, the previous value otherwise. -/
theorem runTurn_session_step (cfg : ChatConfig)
    (t : String × Except String GenResponse) (st : ChatState) :
    (runTurn cfg t st).1.session_id =
      match (runTurn cfg t st).2.response with
      | some r => some r.sessionId
      | none => st.session_id := by
  unfold runTurn
  rw [chat_session_step, setInput_session]

/-- Auxiliary invariant: over any run, the stored session identifier equals
the `sessionId` of the most recent successful generation response of the run,
falling back to its value at the start of the run when no call succeeded. -/
theorem runTrace_session_eq_lastSuccess (cfg : ChatConfig)
    (ts : List (String × Except String GenResponse)) :
    ∀ st : ChatState,
      (runTrace cfg st ts).session_id =
        match (successSessions (runTraceEvents cfg st ts)).getLast? with
        | some s => some s
        | none => st.session_id := by
  induction ts with
  | nil =>
    intro st
    simp [runTrace, runTraceEvents, successSessions]
  | cons t ts ih =>
    intro st
    have hrt : runTrace cfg st (t :: ts) = runTrace cfg (runTurn cfg t st).1 ts := rfl
    have hev : runTraceEvents cfg st (t :: ts) =
        (runTurn cfg t st).2 :: runTraceEvents cfg (runTurn cfg t st).1 ts := rfl
    rw [hrt, hev, ih]
    have hstep := runTurn_session_step cfg t st
    cases hresp : (runTurn cfg t st).2.response with
    | none =>
      rw [hresp] at hstep
      simp only [successSessions, List.filterMap_cons, hresp, Option.map_none']
      cases (List.filterMap (fun ev => ev.response.map (fun r => r.sessionId))
          (runTraceEvents cfg (runTurn cfg t st).1 ts)).getLast? <;> simp [hstep]
    | some r =>
      rw [hresp] at hstep
      simp only [successSessions, List.filterMap_cons, hresp, Option.map_some']
      cases hL : List.filterMap (fun ev => ev.response.map (fun r => r.sessionId))
          (runTraceEvents cfg (runTurn cfg t st).1 ts) with
      | nil => simp [hstep]
      | cons a l =>
        rw [List.getLast?_cons_cons]
        cases hx : (a :: l).getLast? with
        | none => simp at hx
        | some x => rfl

/-- C8: invariant of the interactive-loop state.  Starting from
`start_chat` (where `ChatUX.__init__` set `self.session_id = None`), after
any sequence of user turns the stored session identifier is exactly the
`sessionId` of the most recent successful generation response — `none` when
no call has succeeded yet.  In particular it is mutated only by a successful
generation call: quit turns, empty-input turns and failed calls contribute no
successful response and hence leave it unchanged. -/
theorem C8_session_invariant (cfg : ChatConfig)
    (ocStart : Except String GenResponse)
    (ts : List (String × Except String GenResponse)) :
    (runTrace cfg (start_chat cfg ocStart).1 ts).session_id =
      (successSessions
        (runTraceEvents cfg (start_chat cfg ocStart).1 ts)).getLast? := by
  rw [runTrace_session_eq_lastSuccess]
  have h0 : (start_chat cfg ocStart).1.session_id = none := by
    unfold start_chat
    rw [chat_no_widget cfg ocStart initState rfl]
    rfl
  cases (successSessions
      (runTraceEvents cfg (start_chat cfg ocStart).1 ts)).getLast? <;>
    simp [h0]

end KbBedrock
